import Mathlib

/-!
Verification of the iagon client adapter (src/iagon/base.py) against its
natural-language specification.  The HTTP layer is embedded shallowly: a
request is a record of what the adapter hands to the `requests` library, a
response is a record of what the adapter reads back (status code, body text,
parsed JSON body, raw content bytes), and the network is an explicit function
from requests to responses.  Python exceptions become an `Except` error type
whose constructors are the exception classes the module defines, plus the
built-in exceptions its body can raise.  The external pycardano primitives
(wallet derivation, CIP8 signing) are modelled as a symbolic term language,
rendered to strings by a fixed encoding that stands in for the concrete bytes.
-/

/-- A parsed JSON value, as the dict `requests.Response.json()` returns.
Numbers are modelled as integers; no claim touches a fractional value. -/
inductive Json
| null
| bool (b : Bool)
| num (n : Int)
| str (s : String)
| arr (xs : List Json)
| obj (kvs : List (String × Json))
deriving Repr

/-- Python exceptions the module can raise: the five classes defined at the
top of base.py, plus the built-ins its body can hit (KeyError from dict
subscription, TypeError from subscripting a non-dict, JSONDecodeError from
`.json()` on a body that is not valid JSON). -/
inductive PyExc
| BadRequestError (arg : Json)
| NotAuthenticatedError (arg : Json)
| NotFoundError (arg : Json)
| DirectoryExistsError (arg : Json)
| InternalServerError (arg : Json)
| KeyError (key : String)
| TypeError
| JSONDecodeError
deriving Repr

/-- First value bound to a key in an association list, as Python dict lookup
sees a parsed JSON object. -/
def lookupKey : List (String × Json) → String → Option Json
  | [], _ => none
  | (k, v) :: rest, key => if k = key then some v else lookupKey rest key

/-- Python subscription `d[key]` on a parsed JSON value: the value at the key
of an object, KeyError when the key is absent, TypeError on a non-object. -/
def getItem : Json → String → Except PyExc Json
  | Json.obj kvs, key =>
      match lookupKey kvs key with
      | some v => Except.ok v
      | none => Except.error (PyExc.KeyError key)
  | _, _ => Except.error PyExc.TypeError

mutual
/-- Python repr() of a parsed JSON value (strings quoted), used for values
nested inside a list or dict rendering.  No claim depends on this rendering
beyond the fact that `pyStr` is the identity on strings. -/
def pyRepr : Json → String
  | Json.null => "None"
  | Json.bool true => "True"
  | Json.bool false => "False"
  | Json.num n => toString n
  | Json.str s => "\x27" ++ s ++ "\x27"
  | Json.arr xs => "[" ++ pyReprSeq xs ++ "]"
  | Json.obj kvs => "\x7b" ++ pyReprObj kvs ++ "\x7d"

/-- Comma-separated repr of the elements of a JSON array. -/
def pyReprSeq : List Json → String
  | [] => ""
  | [j] => pyRepr j
  | j :: rest => pyRepr j ++ ", " ++ pyReprSeq rest

/-- Comma-separated repr of the key-value pairs of a JSON object. -/
def pyReprObj : List (String × Json) → String
  | [] => ""
  | [(k, v)] => "\x27" ++ k ++ "\x27: " ++ pyRepr v
  | (k, v) :: rest => "\x27" ++ k ++ "\x27: " ++ pyRepr v ++ ", " ++ pyReprObj rest
end

/-- Python str() of a parsed JSON value, as f-string interpolation renders it.
The identity on strings, which is the only case the service exercises. -/
def pyStr : Json → String
  | Json.str s => s
  | Json.null => "None"
  | Json.bool true => "True"
  | Json.bool false => "False"
  | Json.num n => toString n
  | Json.arr xs => "[" ++ pyReprSeq xs ++ "]"
  | Json.obj kvs => "\x7b" ++ pyReprObj kvs ++ "\x7d"

/-- Python str() of a `str | None` value, as f-string interpolation renders
it: literal None prints as the four characters None. -/
def pyOptStr : Option String → String
  | none => "None"
  | some s => s

/-- HTTP method of an outbound call. -/
inductive Method
| get
| post
| delete
deriving Repr, DecidableEq

/-- Body of an outbound call: nothing, a form-encoded field list (the `data`
dict), or a JSON document (`json.dumps` of a dict). -/
inductive ReqBody
| empty
| form (fields : List (String × String))
| jsonDoc (j : Json)
deriving Repr

/-- What the adapter hands to `requests`: method, url, body, multipart file
parts (part name, file name, bytes), headers, and the `timeout=` argument
(none models an absent timeout argument). -/
structure HttpRequest where
  method : Method
  url : String
  body : ReqBody
  files : List (String × String × List Nat)
  headers : List (String × String)
  timeout : Option Nat
deriving Repr

/-- What the adapter reads back from `requests`: the status code, the body as
text, the body parsed as JSON when it is valid JSON, and the raw body bytes
(`.content`). -/
structure Response where
  status_code : Nat
  text : String
  jsonBody : Option Json
  content : List Nat
deriving Repr

/-- `response.json()`: the parsed body, or JSONDecodeError when the body is
not valid JSON. -/
def Response.json (r : Response) : Except PyExc Json :=
  match r.jsonBody with
  | some j => Except.ok j
  | none => Except.error PyExc.JSONDecodeError

/-- The network, as the adapter observes it: every outbound request gets one
response. -/
def Net : Type := HttpRequest → Response

/-- requests.codes lookup: codes["ok"]. -/
def codes_ok : Nat := 200
/-- requests.codes lookup: codes["bad"]. -/
def codes_bad : Nat := 400
/-- requests.codes lookup: codes["unauthorized"]. -/
def codes_unauthorized : Nat := 401
/-- requests.codes lookup: codes["not_found"]. -/
def codes_not_found : Nat := 404
/-- requests.codes lookup: codes["conflict"]. -/
def codes_conflict : Nat := 409

/-- The adapter object: the stored token and the two header dicts `__init__`
builds from it with f-strings. -/
structure IagonAdapter where
  token : Option String
  auth_header : List (String × String)
  json_header : List (String × String)
deriving Repr

/-- The class attribute `IagonAdapter.url`. -/
def IagonAdapter.url : String := "https://gw.v109.iagon.com/api/v2"

/-- `IagonAdapter.__init__(token=None)`: stores the token and builds the two
headers by interpolating it, so a missing token yields the literal header
value Bearer None. -/
def IagonAdapter.init (token : Option String) : IagonAdapter :=
  ⟨token,
   [("Authorization", "Bearer " ++ pyOptStr token)],
   [("Authorization", "Bearer " ++ pyOptStr token),
    ("Content-Type", "application/json")]⟩

/-- `IagonAdapter.handle_response`: the response handler of every
enveloped operation.  400, 401 and 404 raise their class with the parsed
message field; 409 raises DirectoryExistsError with the raw body text; every
other non-200 status raises BadRequestError with an Error-status-text string;
200 returns the parsed JSON body unconditionally. -/
def handle_response (response : Response) : Except PyExc Json :=
  if response.status_code = codes_bad then do
    let j ← response.json
    let m ← getItem j "message"
    Except.error (PyExc.BadRequestError m)
  else if response.status_code = codes_unauthorized then do
    let j ← response.json
    let m ← getItem j "message"
    Except.error (PyExc.NotAuthenticatedError m)
  else if response.status_code = codes_not_found then do
    let j ← response.json
    let m ← getItem j "message"
    Except.error (PyExc.NotFoundError m)
  else if response.status_code = codes_conflict then
    Except.error (PyExc.DirectoryExistsError (Json.str response.text))
  else if response.status_code ≠ codes_ok then
    Except.error (PyExc.BadRequestError
      (Json.str ("Error " ++ toString response.status_code ++ ": " ++ response.text)))
  else
    response.json

/-- Symbolic terms for the external pycardano primitives the session handshake
composes: wallet derivation, key extraction, verification-key hashing, address
construction with `to_cbor_hex()[4:]`, and CIP8 signing.  Each constructor
records one call of base.py lines 209 to 231. -/
inductive CryptoTerm
| from_mnemonic (seed : String)
| derive_from_path (w : CryptoTerm) (path : String)
| paymentSigningKey (w : CryptoTerm)
| stakeSigningKey (w : CryptoTerm)
| to_verification_key (k : CryptoTerm)
| hash (k : CryptoTerm)
| addressCborHexDrop4 (payment_part staking_part : CryptoTerm)
| cip8_signature (message : String) (signing_key : CryptoTerm) (attach_cose_key : Bool)
| cip8_key (message : String) (signing_key : CryptoTerm) (attach_cose_key : Bool)
deriving Repr, DecidableEq

/-- A fixed injective rendering of a symbolic crypto term to the string the
real primitive would produce; it stands in for the concrete bytes (hex
address, CIP8 hex signature) that are outside the embedded code. -/
def CryptoTerm.enc : CryptoTerm → String
  | CryptoTerm.from_mnemonic seed => "wallet(" ++ seed ++ ")"
  | CryptoTerm.derive_from_path w path => "derive(" ++ w.enc ++ "," ++ path ++ ")"
  | CryptoTerm.paymentSigningKey w => "payKey(" ++ w.enc ++ ")"
  | CryptoTerm.stakeSigningKey w => "stakeKey(" ++ w.enc ++ ")"
  | CryptoTerm.to_verification_key k => "vkey(" ++ k.enc ++ ")"
  | CryptoTerm.hash k => "hashOf(" ++ k.enc ++ ")"
  | CryptoTerm.addressCborHexDrop4 p s => "addr(" ++ p.enc ++ "," ++ s.enc ++ ")"
  | CryptoTerm.cip8_signature m k b =>
      "sig(" ++ m ++ "," ++ k.enc ++ "," ++ cond b "T" "F" ++ ")"
  | CryptoTerm.cip8_key m k b =>
      "cosekey(" ++ m ++ "," ++ k.enc ++ "," ++ cond b "T" "F" ++ ")"

/-- The spending derivation path literal of base.py line 210. -/
def spend_path : String := "m/1852\x27/1815\x27/0\x27/0/0"

/-- The staking derivation path literal of base.py line 211. -/
def stake_path : String := "m/1852\x27/1815\x27/0\x27/2/0"

/-- Lines 209, 210, 212: the payment signing key of the wallet, from the
spending path. -/
def session_pay_key (seed : String) : CryptoTerm :=
  CryptoTerm.paymentSigningKey
    (CryptoTerm.derive_from_path (CryptoTerm.from_mnemonic seed) spend_path)

/-- Lines 209, 211, 213: the stake signing key of the wallet, from the
staking path. -/
def session_stake_key (seed : String) : CryptoTerm :=
  CryptoTerm.stakeSigningKey
    (CryptoTerm.derive_from_path (CryptoTerm.from_mnemonic seed) stake_path)

/-- Lines 214 to 217: the address built from the payment and staking
verification key hashes, as cbor hex with the first four characters dropped. -/
def session_address (seed : String) : CryptoTerm :=
  CryptoTerm.addressCborHexDrop4
    (CryptoTerm.hash (CryptoTerm.to_verification_key (session_pay_key seed)))
    (CryptoTerm.hash (CryptoTerm.to_verification_key (session_stake_key seed)))

/-- One call of pycardano sign(): the message, the signing key handed in, and
the attach_cose_key flag. -/
structure SignCall where
  message : String
  signing_key : CryptoTerm
  attach_cose_key : Bool
deriving Repr, DecidableEq

/-- Lines 221 to 225: the sign() call the session block makes on the nonce,
with the stake key and attach_cose_key=True. -/
def session_sign_call (seed nonceValue : String) : SignCall :=
  ⟨nonceValue, session_stake_key seed, true⟩

/-- The dict sign() returns: the detached signature and the attached COSE key
descriptor. -/
structure SignedDict where
  signature : CryptoTerm
  key : CryptoTerm
deriving Repr, DecidableEq

/-- pycardano sign(): produces the signature and, in attach mode, the key
descriptor alongside it, both over the same message and signing key. -/
def pycardano_sign (c : SignCall) : SignedDict :=
  ⟨CryptoTerm.cip8_signature c.message c.signing_key c.attach_cose_key,
   CryptoTerm.cip8_key c.message c.signing_key c.attach_cose_key⟩

/-- The POST of `IagonAdapter.nonce` (base.py lines 140 to 144). -/
def nonceRequest (address : String) : HttpRequest :=
  ⟨Method.post, IagonAdapter.url ++ "/public/nonce",
   ReqBody.form [("publicAddress", address)], [], [], some 10⟩

/-- `IagonAdapter.nonce`: request a nonce; on a non-200 status raise
BadRequestError with an Error-message string; else return the nonce field of
the body.  The returned JSON value is kept as its str() rendering, the
identity for the string nonces the service issues. -/
def IagonAdapter.nonce (address : String) (net : Net) : Except PyExc String := do
  let response := net (nonceRequest address)
  if response.status_code ≠ codes_ok then do
    let j ← response.json
    let m ← getItem j "message"
    Except.error (PyExc.BadRequestError (Json.str ("Error: " ++ pyStr m)))
  else do
    let j ← response.json
    let n ← getItem j "nonce"
    Except.ok (pyStr n)

/-- The POST of `IagonAdapter.verify` (base.py lines 172 to 176). -/
def verifyRequest (address signature key : String) : HttpRequest :=
  ⟨Method.post, IagonAdapter.url ++ "/public/verify",
   ReqBody.form [("publicAddress", address), ("signature", signature), ("key", key)],
   [], [], some 10⟩

/-- `IagonAdapter.verify`: exchange the signed nonce for an auth token; on a
non-200 status raise BadRequestError with an Error-message string; else
return the session field of the body. -/
def IagonAdapter.verify (address signature key : String) (net : Net) :
    Except PyExc String := do
  let response := net (verifyRequest address signature key)
  if response.status_code ≠ codes_ok then do
    let j ← response.json
    let m ← getItem j "message"
    Except.error (PyExc.BadRequestError (Json.str ("Error: " ++ pyStr m)))
  else do
    let j ← response.json
    let s ← getItem j "session"
    Except.ok (pyStr s)

/-- The part of `IagonAdapter.session` before its yield (base.py lines 208 to
235): derive the address, request a nonce, CIP8-sign it with the stake key,
exchange it for a token, and build the adapter.  No step is wrapped: any
exception a step raises propagates as it is. -/
def sessionEnter (seed : String) (net : Net) : Except PyExc IagonAdapter := do
  let address := (session_address seed).enc
  let nonceValue ← IagonAdapter.nonce address net
  let signed_nonce := pycardano_sign (session_sign_call seed nonceValue)
  let token ← IagonAdapter.verify address signed_nonce.signature.enc
    signed_nonce.key.enc net
  Except.ok (IagonAdapter.init (some token))

/-- What one run of the `session` context manager leaves behind: the outcome
the with-block exit propagates, the requests issued after the yield (the
release phase), and the adapter as the scope leaves it (none when the
handshake itself failed and no adapter was ever built). -/
structure ScopeOutcome where
  outcome : Except PyExc Unit
  exitRequests : List HttpRequest
  adapterAfter : Option IagonAdapter
deriving Repr

/-- One run of the `session` context manager with a given with-block body.
The generator has no try/finally and no statement after `yield adapter` (the
disconnect call sites of lines 237 and 241 are commented out behind TODO
notes), so nothing runs after the yield on any exit path: a body exception
propagates untouched, no release request is issued, and the adapter, its
token included, is left exactly as the handshake built it. -/
def sessionScope (seed : String) (net : Net)
    (body : IagonAdapter → Except PyExc Unit) : ScopeOutcome :=
  match sessionEnter seed net with
  | Except.error e => ⟨Except.error e, [], none⟩
  | Except.ok adapter => ⟨body adapter, [], some adapter⟩

/-- The POST of `IagonAdapter.check_auth` (base.py lines 245 to 249). -/
def checkAuthRequest (a : IagonAdapter) : HttpRequest :=
  ⟨Method.post, IagonAdapter.url ++ "/public/checkauth",
   ReqBody.empty, [], a.auth_header, some 10⟩

/-- `IagonAdapter.check_auth` up to its response handling; the closing
pydantic validation (`Success.model_validate(...).success`) reads the success
field of the returned dict and is outside what any claim needs. -/
def IagonAdapter.check_auth (a : IagonAdapter) (net : Net) : Except PyExc Json :=
  handle_response (net (checkAuthRequest a))

/-- The POST of `IagonAdapter.disconnect` (base.py lines 256 to 260). -/
def disconnectRequest (a : IagonAdapter) : HttpRequest :=
  ⟨Method.post, IagonAdapter.url ++ "/public/disconnect",
   ReqBody.empty, [], a.auth_header, some 10⟩

/-- `IagonAdapter.disconnect`: one POST, its response passed through the
handler, no returned value. -/
def IagonAdapter.disconnect (a : IagonAdapter) (net : Net) : Except PyExc Unit := do
  let _ ← handle_response (net (disconnectRequest a))
  Except.ok ()

/-- json.dumps rendering of an optional string field: None becomes null. -/
def jsonOfOptStr : Option String → Json
  | none => Json.null
  | some s => Json.str s

/-- The POST of `IagonAdapter.create_directory` (base.py lines 297 to 302). -/
def createDirectoryRequest (a : IagonAdapter) (name : String)
    (parent_id : Option String) : HttpRequest :=
  ⟨Method.post, IagonAdapter.url ++ "/storage/directory/create",
   ReqBody.jsonDoc (Json.obj
     [("directory_name", Json.str name),
      ("parent_directory_id", jsonOfOptStr parent_id)]),
   [], a.json_header, some 10⟩

/-- `IagonAdapter.create_directory` up to its response handling; the closing
pydantic validation (`CreateDirectorySuccess.model_validate(...).data`) is
outside what any claim needs. -/
def IagonAdapter.create_directory (a : IagonAdapter) (name : String)
    (parent_id : Option String) (net : Net) : Except PyExc Json :=
  handle_response (net (createDirectoryRequest a name parent_id))

/-- The POST of `IagonAdapter.upload` (base.py lines 333 to 349): the form
fields in insertion order, with directoryId and regionId only when supplied,
and the multipart part named file. -/
def uploadRequest (a : IagonAdapter) (file_name : String) (file : List Nat)
    (priv : Bool) (password : String) (dir_id region_id : Option String) :
    HttpRequest :=
  let visibility := if priv then "private" else "public"
  let data := [("filename", file_name), ("password", password),
      ("visibility", visibility)]
    ++ (match dir_id with
        | some d => [("directoryId", d)]
        | none => [])
    ++ (match region_id with
        | some r => [("regionId", r)]
        | none => [])
  ⟨Method.post, IagonAdapter.url ++ "/storage/upload/",
   ReqBody.form data, [("file", file_name, file)], a.auth_header, some 10⟩

/-- `IagonAdapter.upload` up to its response handling; the closing pydantic
validation (`CreateFileSuccess.model_validate(...).data`) is outside what any
claim needs.  The Python parameter named private is written priv, private
being a Lean keyword. -/
def IagonAdapter.upload (a : IagonAdapter) (file_name : String) (file : List Nat)
    (priv : Bool) (password : String) (dir_id region_id : Option String)
    (net : Net) : Except PyExc Json :=
  handle_response (net (uploadRequest a file_name file priv password dir_id region_id))

/-- The POST of `IagonAdapter.download` (base.py lines 371 to 376). -/
def downloadRequest (a : IagonAdapter) (file_id password : String) : HttpRequest :=
  ⟨Method.post, IagonAdapter.url ++ "/storage/download/",
   ReqBody.form [("id", file_id), ("password", password)],
   [], a.auth_header, some 10⟩

/-- `IagonAdapter.download` (base.py lines 356 to 377): one POST, and the
raw response content returned directly.  The response never goes through
`handle_response`, its status code is never read, and its body is not decoded. -/
def IagonAdapter.download (a : IagonAdapter) (file_id password : String)
    (net : Net) : List Nat :=
  (net (downloadRequest a file_id password)).content

/-- The GET of `IagonAdapter.lsdir` (base.py lines 394 to 408): the list
endpoint with the permission segment when path is None, else the directory
endpoint with the path ids joined by a slash.  The Python parameter named
private is written priv, private being a Lean keyword. -/
def lsdirRequest (a : IagonAdapter) (path : Option (List String)) (priv : Bool) :
    HttpRequest :=
  let permission := if priv then "private" else "public"
  match path with
  | none =>
      ⟨Method.get, IagonAdapter.url ++ "/storage/list/" ++ permission,
       ReqBody.empty, [], a.json_header, some 10⟩
  | some p =>
      let path_list := String.intercalate "/" p
      ⟨Method.get, IagonAdapter.url ++ "/storage/directory/" ++ path_list ++ "/list",
       ReqBody.empty, [], a.json_header, some 10⟩

/-- `IagonAdapter.lsdir` up to its response handling; the closing pydantic
validation (`ListSuccess.model_validate(response)`) is outside what any claim
needs. -/
def IagonAdapter.lsdir (a : IagonAdapter) (path : Option (List String))
    (priv : Bool) (net : Net) : Except PyExc Json :=
  handle_response (net (lsdirRequest a path priv))

/-- The DELETE of `IagonAdapter.delete_directory` (base.py lines 423 to 427). -/
def deleteDirectoryRequest (a : IagonAdapter) (dir_id : String) : HttpRequest :=
  ⟨Method.delete, IagonAdapter.url ++ "/storage/directory/" ++ dir_id,
   ReqBody.empty, [], a.json_header, some 10⟩

/-- `IagonAdapter.delete_directory` up to its response handling; the closing
pydantic validation (`Success.model_validate(response)`) is outside what any
claim needs. -/
def IagonAdapter.delete_directory (a : IagonAdapter) (dir_id : String)
    (net : Net) : Except PyExc Json :=
  handle_response (net (deleteDirectoryRequest a dir_id))

/-- The outbound requests of the module: one constructor per `requests` call
site of base.py, each quantified over everything the caller of that operation
can choose. -/
inductive EmittedRequest : HttpRequest → Prop
| nonce_call (address : String) : EmittedRequest (nonceRequest address)
| verify_call (address signature key : String) :
    EmittedRequest (verifyRequest address signature key)
| check_auth_call (a : IagonAdapter) : EmittedRequest (checkAuthRequest a)
| disconnect_call (a : IagonAdapter) : EmittedRequest (disconnectRequest a)
| create_directory_call (a : IagonAdapter) (name : String)
    (parent_id : Option String) :
    EmittedRequest (createDirectoryRequest a name parent_id)
| upload_call (a : IagonAdapter) (file_name : String) (file : List Nat)
    (priv : Bool) (password : String) (dir_id region_id : Option String) :
    EmittedRequest (uploadRequest a file_name file priv password dir_id region_id)
| download_call (a : IagonAdapter) (file_id password : String) :
    EmittedRequest (downloadRequest a file_id password)
| lsdir_call (a : IagonAdapter) (path : Option (List String)) (priv : Bool) :
    EmittedRequest (lsdirRequest a path priv)
| delete_directory_call (a : IagonAdapter) (dir_id : String) :
    EmittedRequest (deleteDirectoryRequest a dir_id)

/-- The caller-suppliable timeout the claim describes, read over the embedded
operations: were the timeout suppliable by the caller of an operation, some
choice of caller arguments would emit a request whose timeout differs from
the hard-coded 10. -/
def timeout_caller_choosable : Prop :=
  ∃ r : HttpRequest, EmittedRequest r ∧ r.timeout ≠ some 10

/-- A service that rejects the nonce request: status 400 with message bad
address; every other endpoint answers 200 with an empty object. -/
def badNonceNet : Net := fun r =>
  if r.url = IagonAdapter.url ++ "/public/nonce" then
    ⟨400, "", some (Json.obj [("message", Json.str "bad address")]), []⟩
  else
    ⟨200, "", some (Json.obj []), []⟩

/-- A service that issues nonce N1 but rejects the verify request: status 400
with message bad signature. -/
def badVerifyNet : Net := fun r =>
  if r.url = IagonAdapter.url ++ "/public/nonce" then
    ⟨200, "", some (Json.obj [("nonce", Json.str "N1")]), []⟩
  else
    ⟨400, "", some (Json.obj [("message", Json.str "bad signature")]), []⟩

/-- A service that completes the handshake: nonce N1, then token tok123 from
the verify endpoint. -/
def okNet : Net := fun r =>
  if r.url = IagonAdapter.url ++ "/public/nonce" then
    ⟨200, "", some (Json.obj [("nonce", Json.str "N1")]), []⟩
  else if r.url = IagonAdapter.url ++ "/public/verify" then
    ⟨200, "", some (Json.obj [("session", Json.str "tok123")]), []⟩
  else
    ⟨200, "", some (Json.obj []), []⟩

/-- C1: what the code does on an unmapped status.  The claim says every status
outside 200, 400, 401, 404 and 409 maps to the InternalError kind; evaluating
`handle_response` at statuses 500, 502, 503 and 201 shows it raises
`BadRequestError` with the Error-status-text string instead.  It does fail,
never returning the response as a success, but with the BadRequest kind; the
`InternalServerError` class the module defines and documents for status 500 is
never raised. -/
theorem handle_response_unmapped_status_raises_bad_request :
    handle_response ⟨500, "boom", some (Json.obj [("message", Json.str "boom")]), []⟩
      = Except.error (PyExc.BadRequestError (Json.str "Error 500: boom")) ∧
    handle_response ⟨502, "bad gateway", some (Json.obj []), []⟩
      = Except.error (PyExc.BadRequestError (Json.str "Error 502: bad gateway")) ∧
    handle_response ⟨503, "unavailable", none, []⟩
      = Except.error (PyExc.BadRequestError (Json.str "Error 503: unavailable")) ∧
    handle_response ⟨201, "created", some (Json.obj []), []⟩
      = Except.error (PyExc.BadRequestError (Json.str "Error 201: created")) :=
  ⟨rfl, rfl, rfl, rfl⟩

/-- C2: for every response whose body is valid JSON with a string message
field, `handle_response` maps status 400 to BadRequestError, 401 to
NotAuthenticatedError, 404 to NotFoundError and 409 to DirectoryExistsError
(the Conflict kind), whatever else the body holds; 400, 401 and 404 surface
the message field of the body in the error, and 409 surfaces the raw body
text. -/
theorem handle_response_client_error_mapping (t m : String) (j : Json)
    (c : List Nat) (hm : getItem j "message" = Except.ok (Json.str m)) :
    handle_response ⟨400, t, some j, c⟩
      = Except.error (PyExc.BadRequestError (Json.str m)) ∧
    handle_response ⟨401, t, some j, c⟩
      = Except.error (PyExc.NotAuthenticatedError (Json.str m)) ∧
    handle_response ⟨404, t, some j, c⟩
      = Except.error (PyExc.NotFoundError (Json.str m)) ∧
    handle_response ⟨409, t, some j, c⟩
      = Except.error (PyExc.DirectoryExistsError (Json.str t)) := by
  refine ⟨?_, ?_, ?_, rfl⟩
  · show (getItem j "message").bind
      (fun m => Except.error (PyExc.BadRequestError m)) = _
    rw [hm]
    rfl
  · show (getItem j "message").bind
      (fun m => Except.error (PyExc.NotAuthenticatedError m)) = _
    rw [hm]
    rfl
  · show (getItem j "message").bind
      (fun m => Except.error (PyExc.NotFoundError m)) = _
    rw [hm]
    rfl

/-- C2 witness: the mapping at a concrete body carrying success false and
message oops, with raw text rawbody. -/
theorem handle_response_client_error_mapping_witness :
    handle_response ⟨400, "rawbody", some (Json.obj
        [("success", Json.bool false), ("message", Json.str "oops")]), []⟩
      = Except.error (PyExc.BadRequestError (Json.str "oops")) :=
  (handle_response_client_error_mapping "rawbody" "oops"
    (Json.obj [("success", Json.bool false), ("message", Json.str "oops")])
    [] rfl).1

/-- C3: what the session scope does on exit.  The claim says release is
guaranteed on every exit path, with a best-effort disconnect attempted and the
in-memory token discarded.  Evaluating one run of the context manager against
a service that issues token tok123 shows that, both when the with-block body
raises and when it returns normally, the scope issues no request after the
yield (no disconnect attempt) and leaves the adapter still holding the token:
the generator has no try/finally and its disconnect lines are commented out. -/
theorem session_scope_performs_no_release :
    (sessionScope "seed words" okNet
        (fun _ => Except.error (PyExc.KeyError "boom"))).exitRequests = [] ∧
    (sessionScope "seed words" okNet
        (fun _ => Except.error (PyExc.KeyError "boom"))).adapterAfter
      = some (IagonAdapter.init (some "tok123")) ∧
    (sessionScope "seed words" okNet
        (fun _ => Except.error (PyExc.KeyError "boom"))).outcome
      = Except.error (PyExc.KeyError "boom") ∧
    (sessionScope "seed words" okNet (fun _ => Except.ok ())).exitRequests = [] ∧
    (sessionScope "seed words" okNet (fun _ => Except.ok ())).adapterAfter
      = some (IagonAdapter.init (some "tok123")) :=
  ⟨rfl, rfl, rfl, rfl, rfl⟩

/-- C4 counterexample: at a service that rejects the nonce request with status
400 and message bad address, opening a session fails with exactly the
unwrapped BadRequestError the nonce step raised, not with any wrapping
AuthError kind — the module defines no AuthError at all. -/
theorem session_nonce_failure_unwrapped :
    sessionEnter "seed words" badNonceNet
      = Except.error (PyExc.BadRequestError (Json.str "Error: bad address")) ∧
    IagonAdapter.nonce (session_address "seed words").enc badNonceNet
      = Except.error (PyExc.BadRequestError (Json.str "Error: bad address")) :=
  ⟨rfl, rfl⟩

/-- C4 amended: a failure in any handshake step propagates its underlying
exception unwrapped: whatever error the nonce step raises is exactly the error
of the whole session opening, and likewise for the verify step once the nonce
step has succeeded.  base.py defines no AuthError kind and wraps nothing. -/
theorem session_propagates_step_errors (seed : String) (net : Net) (e : PyExc) :
    (IagonAdapter.nonce (session_address seed).enc net = Except.error e →
      sessionEnter seed net = Except.error e) ∧
    (∀ n : String,
      IagonAdapter.nonce (session_address seed).enc net = Except.ok n →
      IagonAdapter.verify (session_address seed).enc
          (pycardano_sign (session_sign_call seed n)).signature.enc
          (pycardano_sign (session_sign_call seed n)).key.enc net
        = Except.error e →
      sessionEnter seed net = Except.error e) := by
  constructor
  · intro h
    show (IagonAdapter.nonce (session_address seed).enc net).bind _ = _
    rw [h]
    rfl
  · intro n hn hv
    show (IagonAdapter.nonce (session_address seed).enc net).bind _ = _
    rw [hn]
    show (IagonAdapter.verify (session_address seed).enc
        (pycardano_sign (session_sign_call seed n)).signature.enc
        (pycardano_sign (session_sign_call seed n)).key.enc net).bind _ = _
    rw [hv]
    rfl

/-- C4 witness: the propagation theorem applied at a service whose verify step
rejects with message bad signature: the session opening fails with exactly
that unwrapped BadRequestError. -/
theorem session_propagates_step_errors_witness :
    sessionEnter "seed words" badVerifyNet
      = Except.error (PyExc.BadRequestError (Json.str "Error: bad signature")) :=
  (session_propagates_step_errors "seed words" badVerifyNet
    (PyExc.BadRequestError (Json.str "Error: bad signature"))).2 "N1" rfl rfl

/-- C5: for every adapter, file id, password and HTTP response, download
returns the raw response content verbatim: the result is exactly the content
bytes of whatever response the network gives, with no status-code check and no
envelope decoding — in particular the bytes come back unchanged when the
status is not 200. -/
theorem download_returns_raw_content (a : IagonAdapter)
    (file_id password : String) (raw : Response) :
    IagonAdapter.download a file_id password (fun _ => raw) = raw.content :=
  rfl

/-- C6 counterexample: an empty sequence of directory ids does not route to
the storage list endpoint: lsdir with path [] builds the url
/storage/directory//list (empty joined path), not /storage/list/public; only
path None routes to the list endpoint. -/
theorem lsdir_empty_path_not_list_endpoint :
    (lsdirRequest (IagonAdapter.init (some "tok")) (some []) false).url
      = "https://gw.v109.iagon.com/api/v2/storage/directory//list" ∧
    (lsdirRequest (IagonAdapter.init (some "tok")) (some []) false).url
      ≠ "https://gw.v109.iagon.com/api/v2/storage/list/public" ∧
    (lsdirRequest (IagonAdapter.init (some "tok")) none false).url
      = "https://gw.v109.iagon.com/api/v2/storage/list/public" :=
  ⟨rfl, by decide, rfl⟩

/-- C6 amended: lsdir sends GET /storage/list/(public or private) exactly when
path is None, the argument omitted; any given list of directory ids, the empty
list included, routes to GET /storage/directory/(joined path)/list with the
ids joined by a slash — the empty list therefore yields
/storage/directory//list, not the list endpoint. -/
theorem lsdir_routes_on_path_presence (a : IagonAdapter) (priv : Bool)
    (p : List String) :
    (lsdirRequest a none priv).method = Method.get ∧
    (lsdirRequest a none priv).url
      = IagonAdapter.url ++ "/storage/list/"
        ++ (if priv then "private" else "public") ∧
    (lsdirRequest a (some p) priv).method = Method.get ∧
    (lsdirRequest a (some p) priv).url
      = IagonAdapter.url ++ "/storage/directory/"
        ++ String.intercalate "/" p ++ "/list" :=
  ⟨rfl, rfl, rfl, rfl⟩

/-- C7 counterexample: an adapter with no token is representable: the
constructor accepts token None, its default, and the resulting adapter holds
no token while its auth header reads Bearer None — possession of a token is
not enforced at the type or interface level. -/
theorem adapter_without_token_representable :
    (IagonAdapter.init none).token = none ∧
    (IagonAdapter.init none).auth_header = [("Authorization", "Bearer None")] :=
  ⟨rfl, rfl⟩

/-- C7 amended: the constructor takes an optional token defaulting to None, so
an adapter with no token is representable; for every optional token the
constructor succeeds with that token stored, and a missing token flows into
the request headers as the literal Bearer None rather than being rejected by
the types or by a runtime check. -/
theorem adapter_token_optional (t : Option String) :
    (IagonAdapter.init t).token = t ∧
    (IagonAdapter.init t).auth_header
      = [("Authorization", "Bearer " ++ pyOptStr t)] ∧
    (IagonAdapter.init none).json_header
      = [("Authorization", "Bearer None"), ("Content-Type", "application/json")] :=
  ⟨rfl, rfl, rfl⟩

/-- C8: the session opening derives the wallet address deterministically from
the seed phrase: both the spending path (m/1852h/1815h/0h/0/0) and the staking
path (m/1852h/1815h/0h/2/0) are derived, and the address combines the spending
verification key hash with the staking verification key hash; the nonce is
then signed with the staking key with attach_cose_key true, so the sign result
embeds the COSE public-key descriptor alongside the detached signature. -/
theorem session_derivation_and_sign_mode (seed n : String) :
    session_address seed
      = CryptoTerm.addressCborHexDrop4
          (CryptoTerm.hash (CryptoTerm.to_verification_key
            (CryptoTerm.paymentSigningKey (CryptoTerm.derive_from_path
              (CryptoTerm.from_mnemonic seed) "m/1852\x27/1815\x27/0\x27/0/0"))))
          (CryptoTerm.hash (CryptoTerm.to_verification_key
            (CryptoTerm.stakeSigningKey (CryptoTerm.derive_from_path
              (CryptoTerm.from_mnemonic seed) "m/1852\x27/1815\x27/0\x27/2/0")))) ∧
    session_sign_call seed n = ⟨n, session_stake_key seed, true⟩ ∧
    pycardano_sign (session_sign_call seed n)
      = ⟨CryptoTerm.cip8_signature n (session_stake_key seed) true,
         CryptoTerm.cip8_key n (session_stake_key seed) true⟩ :=
  ⟨rfl, rfl, rfl⟩

/-- C9 counterexample: the timeout is not caller-suppliable: no operation, at
any caller-chosen arguments, emits a request whose timeout differs from the
hard-coded 10 — every one of the nine call sites passes the literal
timeout=10, so no caller-supplied value can reach it. -/
theorem no_caller_chosen_timeout : ¬ timeout_caller_choosable := by
  rintro ⟨r, hr, hne⟩
  cases hr
  case lsdir_call a path priv => cases path <;> exact hne rfl
  all_goals exact hne rfl

/-- C9 amended: every outbound HTTP call of every operation sets an explicit
timeout, and that timeout is the hard-coded literal 10 at all nine call sites,
for every choice of caller arguments: no call can block indefinitely, and the
timeout is not caller-suppliable. -/
theorem every_outbound_request_times_out_at_ten (r : HttpRequest)
    (h : EmittedRequest r) : r.timeout = some 10 := by
  cases h
  case lsdir_call a path priv => cases path <;> rfl
  all_goals rfl

/-- C9 witness: the timeout theorem applied at the concrete nonce request for
address addr: its timeout is the explicit 10. -/
theorem every_outbound_request_times_out_at_ten_witness :
    (nonceRequest "addr").timeout = some 10 :=
  every_outbound_request_times_out_at_ten (nonceRequest "addr")
    (EmittedRequest.nonce_call "addr")

/-- C10: for every response with status 200 and a JSON body, handle_response
returns the parsed body unconditionally, never reading the success field of
the envelope: in particular a 200 body carrying success false comes back as a
success value, mapped to no error kind. -/
theorem handle_response_200_ignores_success (t : String) (j : Json)
    (c : List Nat) :
    handle_response ⟨200, t, some j, c⟩ = Except.ok j ∧
    handle_response ⟨200, t,
        some (Json.obj [("success", Json.bool false),
          ("message", Json.str "failed")]), c⟩
      = Except.ok (Json.obj [("success", Json.bool false),
          ("message", Json.str "failed")]) :=
  ⟨rfl, rfl⟩
